import Mathlib

/-!
Verification of the battle-session and progression core of an RPG game server.

The development shallowly embeds the relevant Python modules:
  app/services/rewards.py          (RewardsCalculator)
  app/services/stage_generator.py  (StageGenerator)
  app/services/battle_validator.py (BattleValidator)
  app/routers/progression.py       (complete_stage endpoint)
  app/routers/character.py         (calculate_power)
  app/models/battle_session.py     (BattleSession entity)

Conventions of the embedding:
  - Python int is modelled as Int; Python float as Rat (every float literal in
    the embedded code, such as 0.5, 0.1, 0.25, 0.6, is exactly representable,
    so Rat agrees with IEEE evaluation on the formulas in scope).
  - Python int(x) truncation toward zero is pyInt; Python floor division is
    Int.fdiv; Python modulo on integers is Int.emod, which Lean writes as %.
  - datetime values are modelled by their timestamps in integer milliseconds;
    the source converts with int(dt.timestamp() * 1000) where milliseconds
    matter, and only compares datetimes otherwise.
  - JSON dictionaries with optional keys are structures with Option fields;
    a dict.get with a default becomes Option.getD.
  - Database state threaded through complete_stage is the single session the
    request token resolves to (session tokens are the primary key, hence
    unique) together with the character row; none models an unknown token.
-/

/-- Python int() truncation toward zero, applied to a rational value. -/
def pyInt (q : ℚ) : ℤ := if q < 0 then ⌈q⌉ else ⌊q⌋

/-! ## Schemas (app/schemas/progression.py) -/

/-- MobConfig: configuration for a mob in a stage. -/
structure MobConfig where
  mob_id : String
  mob_name : String
  mob_type : String
  health : ℤ
  damage : ℤ
  defense : ℤ
  magic_resistance : ℤ
  speed : ℚ
  attack_speed : ℚ
  critical_chance : ℚ
  critical_multiplier : ℚ
  dodge_chance : ℚ
  attack_range : ℚ
  behavior_type : String
  aggro_range : ℚ
  color : List ℚ
  size_scale : ℚ
  xp_reward : ℤ
  gold_reward : ℤ
  drop_chance : ℚ
  special_abilities : List String
  deriving DecidableEq

/-- Bonus stat entry on a dropped item. -/
structure BonusStat where
  stat_type : String
  value : ℚ
  deriving DecidableEq

/-- Item dictionary as produced by RewardsCalculator.roll_item_drop. -/
structure Item where
  item_type : ℤ
  id : String
  name : String
  rarity : ℤ
  slot : ℤ
  atk : ℤ
  defStat : ℤ
  bonus_stats : List BonusStat
  upgrade_level : ℤ
  refine_level : ℤ
  deriving DecidableEq

/-- StageRewards: rewards for completing a stage. -/
structure StageRewards where
  gold : ℤ
  gems : ℤ
  xp : ℤ
  items : List Item
  deriving DecidableEq

/-- BattleStats: statistics from a battle. -/
structure BattleStats where
  total_damage_dealt : ℤ
  total_damage_received : ℤ
  mobs_killed : ℤ
  skills_used : ℤ
  potions_used : ℤ
  duration_ms : ℤ
  deriving DecidableEq

/-- MobKillLog: log entry for a mob kill. -/
structure MobKillLog where
  name : String
  level : ℤ
  max_health : ℤ
  timestamp : ℤ
  deriving DecidableEq

/-- BattleLog: complete battle log sent by the client. -/
structure BattleLog where
  version : ℤ
  battle_start_time : ℤ
  battle_end_time : ℤ
  chapter : ℤ
  stage : ℤ
  player_level : ℤ
  player_power : ℤ
  player_class : ℤ
  stats : BattleStats
  mob_kills : List MobKillLog
  checksum : Option String
  deriving DecidableEq

/-- RewardsResponse: rewards given to the player. -/
structure RewardsResponse where
  gold : ℤ
  gems : ℤ
  xp : ℤ
  items : List Item
  deriving DecidableEq

/-- ProgressionUpdate: progression data returned after completing a stage. -/
structure ProgressionUpdate where
  highest_chapter : ℤ
  highest_stage : ℤ
  completed_stages : List String
  deriving DecidableEq

/-- StageCompleteResponse: response after completing a stage. -/
structure StageCompleteResponse where
  success : Bool
  already_completed : Bool
  error : Option String
  rewards : Option RewardsResponse
  progression : Option ProgressionUpdate
  level_up : Bool
  new_level : Option ℤ
  deriving DecidableEq

/-- StageCompleteRequest: request to complete a stage. -/
structure StageCompleteRequest where
  session_token : String
  chapter : ℤ
  stage : ℤ
  battle_log : BattleLog
  deriving DecidableEq

/-! ## RewardsCalculator (app/services/rewards.py) -/

/-- XP required to reach a level: 100 * level * level. -/
def xp_for_level (level : ℤ) : ℤ := 100 * level * level

/-- Growth bound used to justify termination of the leveling loop. -/
theorem xp_loop_step_bound {total_xp : ℤ} {level : ℕ}
    (h : xp_for_level ((level : ℤ) + 1) ≤ total_xp) :
    total_xp.toNat - (level + 1) < total_xp.toNat - level := by
  have hl : (0:ℤ) ≤ (level : ℤ) := Int.natCast_nonneg level
  simp only [xp_for_level] at h
  have h2 : ((level : ℤ) + 1) ≤ 100 * ((level : ℤ) + 1) * ((level : ℤ) + 1) := by nlinarith
  omega

/-- The while loop of calculate_level_from_xp: starting from a current level,
keep incrementing while the next level requirement is within total_xp. -/
def level_from_xp_loop (total_xp : ℤ) (level : ℕ) : ℕ :=
  if h : xp_for_level ((level : ℤ) + 1) ≤ total_xp then
    level_from_xp_loop total_xp (level + 1)
  else level
termination_by total_xp.toNat - level
decreasing_by exact xp_loop_step_bound h

/-- calculate_level_from_xp: level starts at 1 and rises while the next level
requirement is covered by total_xp. -/
def calculate_level_from_xp (total_xp : ℤ) : ℤ :=
  (level_from_xp_loop total_xp 1 : ℤ)

/-- apply_xp: add gained XP, recompute the level, report whether it rose. -/
def apply_xp (current_xp current_level xp_gained : ℤ) : ℤ × ℤ × Bool :=
  let new_xp := current_xp + xp_gained
  let new_level := calculate_level_from_xp new_xp
  let did_level_up := decide (new_level > current_level)
  (new_xp, new_level, did_level_up)

/-! ## StageGenerator (app/services/stage_generator.py) -/

/-- A mob template from the class-level MOB_TEMPLATES and BOSS_TEMPLATES
tables (keys visual or behavioral as well as combat-relevant). -/
structure MobTemplate where
  mob_name : String
  mob_type : String
  base_health : ℤ
  base_damage : ℤ
  base_defense : ℤ
  magic_resistance : ℤ
  speed : ℚ
  attack_speed : ℚ
  critical_chance : ℚ
  critical_multiplier : ℚ
  dodge_chance : ℚ
  attack_range : ℚ
  behavior_type : String
  aggro_range : ℚ
  color : List ℚ
  size_scale : ℚ
  special_abilities : List String
  deriving DecidableEq

def orc_warrior_template : MobTemplate :=
  { mob_name := ("Orc Warrior"), mob_type := ("melee")
    base_health := 100, base_damage := 15, base_defense := 8, magic_resistance := 3
    speed := 90, attack_speed := 1.2, critical_chance := 0.08, critical_multiplier := 1.5
    dodge_chance := 0.05, attack_range := 50, behavior_type := ("aggressive")
    aggro_range := 150, color := [0.4, 0.6, 0.3], size_scale := 1
    special_abilities := [("charge")] }

def goblin_archer_template : MobTemplate :=
  { mob_name := ("Goblin Archer"), mob_type := ("ranged")
    base_health := 60, base_damage := 20, base_defense := 4, magic_resistance := 2
    speed := 110, attack_speed := 1, critical_chance := 0.12, critical_multiplier := 1.8
    dodge_chance := 0.10, attack_range := 200, behavior_type := ("defensive")
    aggro_range := 200, color := [0.3, 0.5, 0.2], size_scale := 0.7
    special_abilities := [("rapid_shot")] }

def dark_mage_template : MobTemplate :=
  { mob_name := ("Dark Mage"), mob_type := ("magic")
    base_health := 50, base_damage := 30, base_defense := 3, magic_resistance := 15
    speed := 70, attack_speed := 0.8, critical_chance := 0.10, critical_multiplier := 2
    dodge_chance := 0.03, attack_range := 250, behavior_type := ("defensive")
    aggro_range := 180, color := [0.3, 0.1, 0.4], size_scale := 0.9
    special_abilities := [("fireball"), ("teleport")] }

def skeleton_template : MobTemplate :=
  { mob_name := ("Skeleton"), mob_type := ("melee")
    base_health := 70, base_damage := 12, base_defense := 6, magic_resistance := 10
    speed := 85, attack_speed := 1.4, critical_chance := 0.05, critical_multiplier := 1.3
    dodge_chance := 0.08, attack_range := 45, behavior_type := ("patrol")
    aggro_range := 120, color := [0.9, 0.9, 0.85], size_scale := 0.95
    special_abilities := [] }

def troll_template : MobTemplate :=
  { mob_name := ("Troll"), mob_type := ("melee")
    base_health := 200, base_damage := 25, base_defense := 15, magic_resistance := 5
    speed := 60, attack_speed := 0.7, critical_chance := 0.05, critical_multiplier := 1.4
    dodge_chance := 0.02, attack_range := 60, behavior_type := ("aggressive")
    aggro_range := 100, color := [0.5, 0.7, 0.5], size_scale := 1.5
    special_abilities := [("regenerate"), ("ground_slam")] }

def orc_warlord_template : MobTemplate :=
  { mob_name := ("Orc Warlord"), mob_type := ("melee")
    base_health := 500, base_damage := 40, base_defense := 20, magic_resistance := 10
    speed := 80, attack_speed := 1, critical_chance := 0.15, critical_multiplier := 2
    dodge_chance := 0.08, attack_range := 70, behavior_type := ("aggressive")
    aggro_range := 200, color := [0.6, 0.2, 0.2], size_scale := 1.8
    special_abilities := [("war_cry"), ("cleave"), ("enrage")] }

def lich_king_template : MobTemplate :=
  { mob_name := ("Lich King"), mob_type := ("magic")
    base_health := 400, base_damage := 60, base_defense := 12, magic_resistance := 30
    speed := 50, attack_speed := 0.6, critical_chance := 0.20, critical_multiplier := 2.5
    dodge_chance := 0.05, attack_range := 300, behavior_type := ("defensive")
    aggro_range := 250, color := [0.2, 0.1, 0.3], size_scale := 1.6
    special_abilities := [("death_bolt"), ("summon_skeletons"), ("soul_drain")] }

def dragon_template : MobTemplate :=
  { mob_name := ("Ancient Dragon"), mob_type := ("magic")
    base_health := 1000, base_damage := 80, base_defense := 25, magic_resistance := 25
    speed := 100, attack_speed := 0.5, critical_chance := 0.15, critical_multiplier := 2
    dodge_chance := 0.10, attack_range := 350, behavior_type := ("aggressive")
    aggro_range := 300, color := [0.8, 0.3, 0.1], size_scale := 3
    special_abilities := [("fire_breath"), ("tail_swipe"), ("fly")] }

/-- The class-level MOB_TEMPLATES table, as an association list in the
insertion order of the Python dict. -/
def MOB_TEMPLATES : List (String × MobTemplate) :=
  [(("orc_warrior"), orc_warrior_template),
   (("goblin_archer"), goblin_archer_template),
   (("dark_mage"), dark_mage_template),
   (("skeleton"), skeleton_template),
   (("troll"), troll_template)]

/-- The class-level BOSS_TEMPLATES table. -/
def BOSS_TEMPLATES : List (String × MobTemplate) :=
  [(("orc_warlord"), orc_warlord_template),
   (("lich_king"), lich_king_template),
   (("dragon"), dragon_template)]

/-- CHAPTER_THEMES: chapters beyond the table use all mob template keys. -/
def CHAPTER_THEMES : List (ℤ × List String) :=
  [(1, [("orc_warrior"), ("goblin_archer")]),
   (2, [("orc_warrior"), ("goblin_archer"), ("skeleton")]),
   (3, [("skeleton"), ("dark_mage")]),
   (4, [("skeleton"), ("dark_mage"), ("troll")]),
   (5, [("dark_mage"), ("troll")])]

/-- get_difficulty_multiplier: base scales with chapter, stage adds smaller
increments, boss and mini-boss stages add extra difficulty. -/
def get_difficulty_multiplier (chapter stage : ℤ) : ℚ :=
  let base : ℚ := 1 + ((chapter : ℚ) - 1) * 0.5
  let stage_bonus : ℚ := ((stage : ℚ) - 1) * 0.1
  let stage_bonus : ℚ :=
    if stage = 10 then stage_bonus + 0.5
    else if stage = 5 then stage_bonus + 0.25
    else stage_bonus
  base + stage_bonus

/-- get_mob_count: how many mobs spawn in a stage. -/
def get_mob_count (chapter stage : ℤ) : ℤ :=
  let base_count := 3 + Int.fdiv chapter 2
  if stage = 10 then 1
  else if stage = 5 then 2
  else min (base_count + Int.fdiv stage 3) 10

/-- generate_mob: scale template stats by difficulty, derive xp and gold
rewards from chapter-based bases. -/
def generate_mob (mob_id : String) (template : MobTemplate) (difficulty : ℚ)
    (chapter : ℤ) : MobConfig :=
  let health := pyInt ((template.base_health : ℚ) * difficulty)
  let damage := pyInt ((template.base_damage : ℚ) * difficulty)
  let defense := pyInt ((template.base_defense : ℚ) * difficulty)
  let magic_res := pyInt ((template.magic_resistance : ℚ) * difficulty)
  let base_xp : ℤ := 10 + chapter * 5
  let base_gold : ℤ := 5 + chapter * 3
  { mob_id := mob_id
    mob_name := template.mob_name
    mob_type := template.mob_type
    health := health
    damage := damage
    defense := defense
    magic_resistance := magic_res
    speed := template.speed
    attack_speed := template.attack_speed
    critical_chance := template.critical_chance
    critical_multiplier := template.critical_multiplier
    dodge_chance := template.dodge_chance
    attack_range := template.attack_range
    behavior_type := template.behavior_type
    aggro_range := template.aggro_range
    color := template.color
    size_scale := template.size_scale
    xp_reward := pyInt ((base_xp : ℚ) * difficulty)
    gold_reward := pyInt ((base_gold : ℚ) * difficulty)
    drop_chance := 0.05 + (chapter : ℚ) * 0.01
    special_abilities := template.special_abilities }

/-- The mutable class-level template tables of StageGenerator, threaded as
explicit state so that (absence of) in-place mutation is observable. -/
structure Templates where
  mob_templates : List (String × MobTemplate)
  boss_templates : List (String × MobTemplate)
  deriving DecidableEq

/-- The tables as defined on the class. -/
def initial_templates : Templates :=
  { mob_templates := MOB_TEMPLATES, boss_templates := BOSS_TEMPLATES }

/-- Python dict.copy(): a fresh object with the same contents; mutating the
copy leaves the original table entry unchanged. -/
def dict_copy (t : MobTemplate) : MobTemplate := t

/-- generate_stage_mobs. Randomness of random.choice is modelled by the
oracle pick, read as an index into the theme list (reduced modulo its
length, as random.choice always returns an element of the list). A lookup
miss, which would raise KeyError or IndexError in Python and is unreachable
for the shipped tables, yields no mob. The returned Templates component is
the table state after the call. -/
def generate_stage_mobs (state : Templates) (chapter stage : ℤ)
    (pick : ℕ → ℕ) : List MobConfig × Templates :=
  let difficulty := get_difficulty_multiplier chapter stage
  let mob_count := get_mob_count chapter stage
  if stage = 10 then
    -- Final boss
    let boss_choices := state.boss_templates.map Prod.fst
    match state.boss_templates.get? (((chapter - 1) % (boss_choices.length : ℤ)).toNat) with
    | some (boss_id, boss_template) =>
        ([generate_mob boss_id boss_template difficulty chapter], state)
    | none => ([], state)
  else if stage = 5 then
    -- Mini-boss (use boss template but weaker)
    let boss_choices := state.boss_templates.map Prod.fst
    match state.boss_templates.get? (((chapter - 1) % (boss_choices.length : ℤ)).toNat) with
    | some (boss_id, bt) =>
        let boss_template := dict_copy bt
        -- Mini-boss is 60 percent of full boss stats, written onto the copy
        let boss_template :=
          { boss_template with
              base_health := pyInt ((boss_template.base_health : ℚ) * 0.6)
              base_damage := pyInt ((boss_template.base_damage : ℚ) * 0.6) }
        let mini := generate_mob (boss_id ++ ("_mini")) boss_template difficulty chapter
        -- Add one regular mob as support
        let theme := (CHAPTER_THEMES.lookup chapter).getD (state.mob_templates.map Prod.fst)
        let support :=
          match theme.get? (pick 0 % theme.length) with
          | some mob_id =>
              match state.mob_templates.lookup mob_id with
              | some t => [generate_mob mob_id t difficulty chapter]
              | none => []
          | none => []
        (mini :: support, state)
    | none => ([], state)
  else
    -- Regular stage: mix of mobs from chapter theme
    let theme := (CHAPTER_THEMES.lookup chapter).getD (state.mob_templates.map Prod.fst)
    let mobs := (List.range mob_count.toNat).filterMap (fun i =>
      match theme.get? (pick i % theme.length) with
      | some mob_id =>
          match state.mob_templates.lookup mob_id with
          | some t => some (generate_mob mob_id t difficulty chapter)
          | none => none
      | none => none)
    (mobs, state)

/-- generate_stage_rewards: base rewards scale with chapter and stage, mob
rewards are added, boss and mini-boss stages multiply the total. The source
also recomputes the difficulty multiplier here but never uses it. -/
def generate_stage_rewards (chapter stage : ℤ) (mobs : List MobConfig) :
    StageRewards :=
  let base_gold : ℤ := 100 * chapter + 10 * stage
  let base_gems : ℤ := chapter + Int.fdiv stage 5
  let base_xp : ℤ := 50 * chapter + 5 * stage
  let mob_gold : ℤ := (mobs.map (fun m => m.gold_reward)).sum
  let mob_xp : ℤ := (mobs.map (fun m => m.xp_reward)).sum
  let multiplier : ℚ := if stage = 10 then 3.0 else if stage = 5 then 2.0 else 1.0
  { gold := pyInt (((base_gold + mob_gold : ℤ) : ℚ) * multiplier)
    gems := pyInt ((base_gems : ℚ) * multiplier)
    xp := pyInt (((base_xp + mob_xp : ℤ) : ℚ) * multiplier)
    items := [] }

/-! ## BattleValidator (app/services/battle_validator.py) -/

def MIN_BATTLE_DURATION_MS : ℤ := 5000
def MAX_BATTLE_DURATION_MS : ℤ := 600000
def MIN_DAMAGE_PER_POWER : ℚ := 0.5
def MAX_DAMAGE_PER_POWER : ℤ := 50

/-- validate_battle_log. The session created-at datetime is passed as its
timestamp in integer milliseconds. The source also computes a minimum
expected damage from MIN_DAMAGE_PER_POWER but never compares against it. -/
def validate_battle_log (battle_log : BattleLog)
    (expected_chapter expected_stage : ℤ) (expected_mobs : List MobConfig)
    (session_created_at_ms : ℤ) : Bool × Option String :=
  -- 1. Verify chapter and stage match
  if battle_log.chapter ≠ expected_chapter ∨ battle_log.stage ≠ expected_stage then
    (false, some ("Chapter/stage mismatch"))
  else
    -- 2. Verify battle duration is reasonable
    let duration := battle_log.battle_end_time - battle_log.battle_start_time
    if duration < MIN_BATTLE_DURATION_MS then
      (false, some (("Battle too short (") ++ toString duration ++ ("ms)")))
    else if duration > MAX_BATTLE_DURATION_MS then
      (false, some (("Battle too long (") ++ toString duration ++ ("ms)")))
    else
      -- 3. Verify battle started after session was created (5s grace)
      let session_ts := session_created_at_ms
      if battle_log.battle_start_time < session_ts - 5000 then
        (false, some ("Battle started before session was created"))
      else
        -- 4. Verify mob kill count matches expected
        let expected_mob_count : ℤ := expected_mobs.length
        let actual_kills := battle_log.stats.mobs_killed
        if actual_kills ≠ expected_mob_count then
          (false, some (("Kill count mismatch: expected ") ++ toString expected_mob_count
            ++ (", got ") ++ toString actual_kills))
        else
          -- 5. Verify damage is plausible for player power
          let max_expected_damage : ℤ := battle_log.player_power * MAX_DAMAGE_PER_POWER
          let total_mob_health : ℤ := (expected_mobs.map (fun m => m.health)).sum
          if (battle_log.stats.total_damage_dealt : ℚ) < (total_mob_health : ℚ) * 0.5 then
            (false, some ("Damage dealt too low for mob health"))
          else if battle_log.stats.total_damage_dealt > max_expected_damage * 100 then
            (false, some ("Damage dealt suspiciously high"))
          else
            -- 6. Verify battle duration matches reported stats (1s tolerance)
            let reported_duration := battle_log.stats.duration_ms
            if |reported_duration - duration| > 1000 then
              (false, some ("Duration mismatch in stats"))
            else
              (true, none)

/-! ## Character and BattleSession state
(app/models/character.py, app/models/battle_session.py,
app/routers/character.py) -/

/-- The stats dictionary keys read by calculate_power; a missing key reads
as 0 through dict.get. -/
structure Stats where
  strength : Option ℤ
  agility : Option ℤ
  intelligence : Option ℤ
  vitality : Option ℤ
  physical_damage : Option ℤ
  magic_damage : Option ℤ
  defense : Option ℤ
  magic_resistance : Option ℤ
  deriving DecidableEq

/-- The inventory dictionary: items list and slot capacity. -/
structure Inventory where
  items : List Item
  max_slots : ℤ
  deriving DecidableEq

/-- The chapters sub-dictionary of the progression JSON blob; each key may
be absent. -/
structure ChaptersProgress where
  completed_stages : Option (List String)
  highest_chapter : Option ℤ
  highest_stage : Option ℤ
  deriving DecidableEq

/-- The progression JSON blob. -/
structure Progression where
  chapters : Option ChaptersProgress
  deriving DecidableEq

/-- The character row fields touched by the completion flow. -/
structure Character where
  level : ℤ
  xp : ℤ
  power : ℤ
  gold : ℤ
  gems : ℤ
  free_stat_points : ℤ
  stats : Option Stats
  inventory : Option Inventory
  progression : Option Progression
  deriving DecidableEq

/-- calculate_power from app/routers/character.py: level-driven base plus
stat contributions, floored at 100. An absent stats dict reads as empty. -/
def calculate_power (character : Character) : ℤ :=
  let s := character.stats.getD
    { strength := none, agility := none, intelligence := none, vitality := none
      physical_damage := none, magic_damage := none, defense := none
      magic_resistance := none }
  let power := character.level * 10
    + s.strength.getD 0 * 2 + s.agility.getD 0 * 2
    + s.intelligence.getD 0 * 2 + s.vitality.getD 0 * 2
    + s.physical_damage.getD 0 * 3 + s.magic_damage.getD 0 * 3
    + s.defense.getD 0 * 2 + s.magic_resistance.getD 0 * 2
  max 100 power

/-- The battle_sessions row. Timestamps are in integer milliseconds. -/
structure BattleSession where
  session_token : String
  character_id : String
  chapter : ℤ
  stage : ℤ
  mob_config : List MobConfig
  rewards : StageRewards
  created_at : ℤ
  expires_at : ℤ
  is_used : Bool
  used_at : Option ℤ
  deriving DecidableEq

/-- BattleSession.is_expired, with the current time passed explicitly. -/
def BattleSession.is_expired (s : BattleSession) (now : ℤ) : Bool :=
  decide (now > s.expires_at)

def TOTAL_CHAPTERS : ℤ := 20
def STAGES_PER_CHAPTER : ℤ := 10

/-- Outcome of the complete_stage endpoint: an HTTP-level error or a domain
StageCompleteResponse. -/
inductive CompleteResult where
  | httpError (statusCode : ℤ) (detail : String)
  | response (r : StageCompleteResponse)
  deriving DecidableEq

/-- Whether the outcome is a domain response carrying success = true. -/
def CompleteResult.isSuccess : CompleteResult → Bool
  | .response r => r.success
  | .httpError _ _ => false


/-! ## The complete_stage endpoint (app/routers/progression.py)

The endpoint body is decomposed into named pieces: the Python default
dictionaries, the inventory append loop, the progression update block, and
the success branch (steps 7 to 11 of the source), tied together by
complete_stage. -/

/-- The fallback dictionary used when the chapters key is absent. -/
def chapters_prog_default : ChaptersProgress :=
  { completed_stages := some [], highest_chapter := none, highest_stage := none }

/-- The fallback dictionary used when the progression blob is empty. -/
def progression_default : Progression :=
  { chapters := some chapters_prog_default }

/-- The fallback dictionary used when the inventory blob is empty. -/
def inventory_default : Inventory :=
  { items := [], max_slots := 50 }

/-- The item loop of the success branch: append each reward item while the
inventory is below capacity, silently dropping the rest. -/
def add_items_to_inventory (inventory : Inventory) (items : List Item) : Inventory :=
  items.foldl
    (fun inv item =>
      if (inv.items.length : ℤ) < inv.max_slots then
        { inv with items := inv.items ++ [item] }
      else inv)
    inventory

/-- The first half of step 9 of the success branch: record the completed
stage key if absent. -/
def add_completed_stage (chapters_prog : ChaptersProgress)
    (chapter stage : ℤ) : ChaptersProgress :=
  let stage_key := toString chapter ++ ("-") ++ toString stage
  let cs := chapters_prog.completed_stages.getD []
  if stage_key ∈ cs then chapters_prog
  else { chapters_prog with completed_stages := some (cs ++ [stage_key]) }

/-- The second half of step 9: advance the highest chapter and stage. -/
def advance_highest (chapters_prog : ChaptersProgress)
    (chapter stage : ℤ) : ChaptersProgress :=
  if chapter > chapters_prog.highest_chapter.getD 1 then
    { chapters_prog with highest_chapter := some chapter
                         highest_stage := some stage }
  else if chapter = chapters_prog.highest_chapter.getD 1 then
    (if stage ≥ chapters_prog.highest_stage.getD 1 then
      let cp := { chapters_prog with highest_stage := some stage }
      -- Completing the last stage of a chapter advances to the next chapter
      if stage = STAGES_PER_CHAPTER then
        { cp with highest_chapter := some (chapter + 1), highest_stage := some 1 }
      else cp
    else chapters_prog)
  else chapters_prog

/-- Step 9 of the success branch. -/
def update_chapters_progression (chapters_prog : ChaptersProgress)
    (chapter stage : ℤ) : ChaptersProgress :=
  advance_highest (add_completed_stage chapters_prog chapter stage) chapter stage

/-- Steps 7 to 11 of complete_stage: mark the session used, apply the
snapshot rewards, update progression and power, build the response. -/
def complete_stage_success (now : ℤ) (character : Character)
    (session : BattleSession) :
    CompleteResult × Character × Option BattleSession :=
  -- 7. Mark session as used
  let session2 : BattleSession := { session with is_used := true, used_at := some now }
  -- 8. Apply rewards from the session snapshot, not from the client
  let rewards_data := session2.rewards
  let character2 : Character := { character with
    gold := character.gold + rewards_data.gold
    gems := character.gems + rewards_data.gems }
  let axr := apply_xp character2.xp character2.level rewards_data.xp
  let new_xp := axr.1
  let new_level := axr.2.1
  let did_level_up := axr.2.2
  let character3 : Character := { character2 with xp := new_xp }
  let character4 : Character :=
    if did_level_up then
      { character3 with level := new_level
                        free_stat_points := character3.free_stat_points + 5 }
    else character3
  let inventory := add_items_to_inventory
    (character4.inventory.getD inventory_default) rewards_data.items
  let character5 : Character := { character4 with inventory := some inventory }
  -- 9. Update progression
  let progression := character5.progression.getD progression_default
  let chapters_prog := update_chapters_progression
    (progression.chapters.getD chapters_prog_default) session2.chapter session2.stage
  let progression2 : Progression := { progression with chapters := some chapters_prog }
  let character6 : Character := { character5 with progression := some progression2 }
  -- Recalculate power
  let character7 : Character := { character6 with power := calculate_power character6 }
  -- 10./11. Commit and build the response. The source indexes the
  -- highest_chapter, highest_stage and completed_stages keys directly here;
  -- the embedding reads them with the defaults used earlier in the function.
  (.response { success := true, already_completed := false, error := none
               rewards := some { gold := rewards_data.gold
                                 gems := rewards_data.gems
                                 xp := rewards_data.xp
                                 items := rewards_data.items }
               progression := some { highest_chapter := chapters_prog.highest_chapter.getD 1
                                     highest_stage := chapters_prog.highest_stage.getD 1
                                     completed_stages := chapters_prog.completed_stages.getD [] }
               level_up := did_level_up
               new_level := if did_level_up then some new_level else none },
   character7, some session2)

/-- complete_stage. The threaded state is the character row and the session
the request token resolves to (none when the token is unknown for this
character, matching the guard that filters on session_token and
character_id). The suspicion score computed on validation failure only
feeds a log line and is omitted. -/
def complete_stage (now : ℤ) (character : Character)
    (sessionQ : Option BattleSession) (request : StageCompleteRequest) :
    CompleteResult × Character × Option BattleSession :=
  match sessionQ with
  | none =>
      -- 1. Fetch and validate session
      (.httpError 400 ("Invalid session token"), character, none)
  | some session =>
      -- 2. Check if already used (prevent replay attacks)
      if session.is_used then
        (.response { success := false, already_completed := true
                     error := some ("Session already used")
                     rewards := none, progression := none
                     level_up := false, new_level := none },
         character, some session)
      -- 3. Check expiration
      else if session.is_expired now then
        (.response { success := false, already_completed := false
                     error := some ("Session expired")
                     rewards := none, progression := none
                     level_up := false, new_level := none },
         character, some session)
      -- 4. Verify chapter and stage match
      else if session.chapter ≠ request.chapter ∨ session.stage ≠ request.stage then
        (.response { success := false, already_completed := false
                     error := some ("Chapter/stage mismatch")
                     rewards := none, progression := none
                     level_up := false, new_level := none },
         character, some session)
      else
        -- 5. Reconstruct expected mobs from session; 6. validate battle log
        let expected_mobs := session.mob_config
        let v := validate_battle_log request.battle_log session.chapter
          session.stage expected_mobs session.created_at
        if v.1 = false then
          (.response { success := false, already_completed := false
                       error := some (("Battle validation failed: ") ++ v.2.getD ("None"))
                       rewards := none, progression := none
                       level_up := false, new_level := none },
           character, some session)
        else
          complete_stage_success now character session

/-- The default-following read of the highest reached chapter, as the
source reads it from the progression blob. -/
def Character.highestChapterVal (c : Character) : ℤ :=
  ((c.progression.getD progression_default).chapters.getD
    chapters_prog_default).highest_chapter.getD 1

/-- The default-following read of the highest reached stage. -/
def Character.highestStageVal (c : Character) : ℤ :=
  ((c.progression.getD progression_default).chapters.getD
    chapters_prog_default).highest_stage.getD 1

/-- The default-following read of the completed stage keys. -/
def Character.completedStagesVal (c : Character) : List String :=
  ((c.progression.getD progression_default).chapters.getD
    chapters_prog_default).completed_stages.getD []

/-! ## Properties of the leveling loop -/

/-- The loop never decreases the level. -/
theorem level_from_xp_loop_ge (xp : ℤ) (l : ℕ) : l ≤ level_from_xp_loop xp l := by
  unfold level_from_xp_loop
  split
  · next h => exact Nat.le_trans (Nat.le_succ l) (level_from_xp_loop_ge xp (l + 1))
  · exact Nat.le_refl l
termination_by xp.toNat - l
decreasing_by exact xp_loop_step_bound (by assumption)

/-- On exit, the next level requirement exceeds the available XP. -/
theorem level_from_xp_loop_post (xp : ℤ) (l : ℕ) :
    ¬ xp_for_level ((level_from_xp_loop xp l : ℤ) + 1) ≤ xp := by
  unfold level_from_xp_loop
  split
  · next h => exact level_from_xp_loop_post xp (l + 1)
  · next h => exact h
termination_by xp.toNat - l
decreasing_by exact xp_loop_step_bound (by assumption)

/-- On exit, either the loop never advanced or the reached level is paid for
by the available XP. -/
theorem level_from_xp_loop_sat (xp : ℤ) (l : ℕ) :
    level_from_xp_loop xp l = l ∨ xp_for_level (level_from_xp_loop xp l : ℤ) ≤ xp := by
  unfold level_from_xp_loop
  split
  · next h =>
      rcases level_from_xp_loop_sat xp (l + 1) with h2 | h2
      · right; rw [h2]; push_cast; exact h
      · right; exact h2
  · left; rfl
termination_by xp.toNat - l
decreasing_by exact xp_loop_step_bound (by assumption)

/-- One-step unfolding: the guard fails, the loop stops. -/
theorem level_from_xp_loop_stop {xp : ℤ} {l : ℕ}
    (h : ¬ xp_for_level ((l : ℤ) + 1) ≤ xp) : level_from_xp_loop xp l = l := by
  unfold level_from_xp_loop
  rw [dif_neg h]

/-- One-step unfolding: the guard holds, the loop advances. -/
theorem level_from_xp_loop_go {xp : ℤ} {l : ℕ}
    (h : xp_for_level ((l : ℤ) + 1) ≤ xp) :
    level_from_xp_loop xp l = level_from_xp_loop xp (l + 1) := by
  conv_lhs => unfold level_from_xp_loop
  rw [dif_pos h]

/-- calculate_level_from_xp returns at least 1, pays for the level it
returns unless that level is 1, and dominates every affordable level. -/
theorem calculate_level_from_xp_spec (t : ℤ) :
    1 ≤ calculate_level_from_xp t ∧
    (100 * calculate_level_from_xp t * calculate_level_from_xp t ≤ t ∨
      calculate_level_from_xp t = 1) ∧
    (∀ M : ℤ, 1 ≤ M → 100 * M * M ≤ t → M ≤ calculate_level_from_xp t) := by
  refine ⟨?_, ?_, ?_⟩
  · unfold calculate_level_from_xp
    exact_mod_cast level_from_xp_loop_ge t 1
  · unfold calculate_level_from_xp
    rcases level_from_xp_loop_sat t 1 with h | h
    · right; rw [h]; norm_num
    · left; simpa [xp_for_level] using h
  · intro M h1 h2
    by_contra hlt
    push_neg at hlt
    have hge : (1 : ℤ) ≤ calculate_level_from_xp t := by
      unfold calculate_level_from_xp
      exact_mod_cast level_from_xp_loop_ge t 1
    have hpost := level_from_xp_loop_post t 1
    simp only [xp_for_level] at hpost
    push_neg at hpost
    unfold calculate_level_from_xp at hlt hge
    have hM : ((level_from_xp_loop t 1 : ℕ) : ℤ) + 1 ≤ M := by omega
    have hsq : (((level_from_xp_loop t 1 : ℕ) : ℤ) + 1) * (((level_from_xp_loop t 1 : ℕ) : ℤ) + 1) ≤ M * M := by
      have h0 : (0 : ℤ) ≤ ((level_from_xp_loop t 1 : ℕ) : ℤ) + 1 := by positivity
      exact mul_self_le_mul_self h0 hM
    nlinarith

/-- Evaluation: 150 XP stays at level 1 (the level-2 requirement is 400). -/
theorem calc_level_150 : calculate_level_from_xp 150 = 1 := by
  unfold calculate_level_from_xp
  rw [level_from_xp_loop_stop (by norm_num [xp_for_level])]
  norm_num

/-- Evaluation: 500 XP reaches level 2 (400 affordable, 900 not). -/
theorem calc_level_500 : calculate_level_from_xp 500 = 2 := by
  unfold calculate_level_from_xp
  rw [level_from_xp_loop_go (by norm_num [xp_for_level]),
    level_from_xp_loop_stop (by norm_num [xp_for_level])]
  norm_num

/-- Claim C8: apply_xp adds the gained XP, returns as new level the largest
level of cost at most the new total (1 when none is affordable), and flags
a level-up exactly when the new level exceeds the current one; in
particular 150 XP from scratch stays at level 1 and 500 XP reaches
level 2. -/
theorem apply_xp_spec (cur lvl g : ℤ) (h1 : 0 ≤ cur) (h2 : 1 ≤ lvl)
    (h3 : 0 ≤ g) :
    (apply_xp cur lvl g).1 = cur + g ∧
    (apply_xp cur lvl g).2.2 = decide (lvl < (apply_xp cur lvl g).2.1) ∧
    1 ≤ (apply_xp cur lvl g).2.1 ∧
    (100 * (apply_xp cur lvl g).2.1 * (apply_xp cur lvl g).2.1 ≤ cur + g ∨
      (apply_xp cur lvl g).2.1 = 1) ∧
    (∀ M : ℤ, 1 ≤ M → 100 * M * M ≤ cur + g → M ≤ (apply_xp cur lvl g).2.1) ∧
    apply_xp 0 1 150 = (150, 1, false) ∧
    apply_xp 0 1 500 = (500, 2, true) := by
  obtain ⟨a, b, c⟩ := calculate_level_from_xp_spec (cur + g)
  refine ⟨rfl, rfl, a, b, c, ?_, ?_⟩
  · simp [apply_xp, calc_level_150]
  · simp [apply_xp, calc_level_500]

/-- Witness for apply_xp_spec at (0, 1, 150). -/
theorem apply_xp_spec_witness :
    (apply_xp 0 1 150).1 = 0 + 150 ∧
    (apply_xp 0 1 150).2.2 = decide ((1 : ℤ) < (apply_xp 0 1 150).2.1) ∧
    1 ≤ (apply_xp 0 1 150).2.1 ∧
    (100 * (apply_xp 0 1 150).2.1 * (apply_xp 0 1 150).2.1 ≤ 0 + 150 ∨
      (apply_xp 0 1 150).2.1 = 1) ∧
    (∀ M : ℤ, 1 ≤ M → 100 * M * M ≤ 0 + 150 → M ≤ (apply_xp 0 1 150).2.1) ∧
    apply_xp 0 1 150 = (150, 1, false) ∧
    apply_xp 0 1 500 = (500, 2, true) :=
  apply_xp_spec 0 1 150 (by norm_num) (by norm_num) (by norm_num)

/-- Claim C10: calculate_level_from_xp is a total function of any integer
XP amount (termination is the measure argument xp_loop_step_bound behind
its definition), always returns at least 1, and returns exactly 1 on every
input below 100, negative values included. -/
theorem calculate_level_from_xp_total (total_xp : ℤ) :
    1 ≤ calculate_level_from_xp total_xp ∧
    (total_xp < 100 → calculate_level_from_xp total_xp = 1) := by
  constructor
  · exact (calculate_level_from_xp_spec total_xp).1
  · intro h
    unfold calculate_level_from_xp
    rw [level_from_xp_loop_stop (by norm_num [xp_for_level]; omega)]
    norm_num

/-- Witness for calculate_level_from_xp_total at a negative input. -/
theorem calculate_level_from_xp_total_witness :
    1 ≤ calculate_level_from_xp (-7) ∧ calculate_level_from_xp (-7) = 1 :=
  ⟨(calculate_level_from_xp_total (-7)).1,
   (calculate_level_from_xp_total (-7)).2 (by norm_num)⟩

/-- Claim C6: the difficulty multiplier is the chapter base plus the stage
increment plus the mutually exclusive boss or mini-boss bonus. -/
theorem get_difficulty_multiplier_formula (chapter stage : ℤ) :
    get_difficulty_multiplier chapter stage =
      (1 + ((chapter : ℚ) - 1) * 0.5) + ((stage : ℚ) - 1) * 0.1 +
        (if stage = 10 then (0.5 : ℚ) else if stage = 5 then 0.25 else 0) := by
  unfold get_difficulty_multiplier
  split_ifs <;> ring

/-- Counterexample to claim C5: at chapter 1 the boss stage difficulty is
2.4, not the claimed 1 + (1-1)*0.5 + 0.5 = 1.5, because the claim omits
the stage increment (10-1)*0.1. -/
theorem boss_difficulty_claim_cex :
    get_mob_count 1 10 = 1 ∧
    get_difficulty_multiplier 1 10 = 2.4 ∧
    get_difficulty_multiplier 1 10 ≠ 1 + (((1 : ℤ) : ℚ) - 1) * 0.5 + 0.5 := by
  refine ⟨rfl, by norm_num [get_difficulty_multiplier], ?_⟩
  norm_num [get_difficulty_multiplier]

/-- Claim C5 as amended: for every chapter in [1, 20] the boss stage has
exactly one monster and difficulty 1 + (chapter-1)*0.5 + (10-1)*0.1 + 0.5. -/
theorem boss_stage_mob_count_difficulty (chapter : ℤ) (h1 : 1 ≤ chapter)
    (h2 : chapter ≤ 20) :
    get_mob_count chapter 10 = 1 ∧
    get_difficulty_multiplier chapter 10 =
      1 + ((chapter : ℚ) - 1) * 0.5 + ((10 : ℚ) - 1) * 0.1 + 0.5 := by
  constructor
  · rfl
  · unfold get_difficulty_multiplier
    norm_num
    ring

/-- Witness for boss_stage_mob_count_difficulty at chapter 1. -/
theorem boss_stage_mob_count_difficulty_witness :
    get_mob_count 1 10 = 1 ∧
    get_difficulty_multiplier 1 10 =
      1 + (((1 : ℤ) : ℚ) - 1) * 0.5 + ((10 : ℚ) - 1) * 0.1 + 0.5 :=
  boss_stage_mob_count_difficulty 1 (by norm_num) (by norm_num)

/-- Claim C7: stage rewards are the chapter-and-stage bases plus summed mob
rewards, scaled by the boss or mini-boss multiplier and truncated to int. -/
theorem generate_stage_rewards_formula (chapter stage : ℤ)
    (mobs : List MobConfig) :
    generate_stage_rewards chapter stage mobs =
      { gold := pyInt (((100 * chapter + 10 * stage +
            (mobs.map (fun m => m.gold_reward)).sum : ℤ) : ℚ) *
          (if stage = 10 then (3.0 : ℚ) else if stage = 5 then 2.0 else 1.0))
        gems := pyInt (((chapter + Int.fdiv stage 5 : ℤ) : ℚ) *
          (if stage = 10 then (3.0 : ℚ) else if stage = 5 then 2.0 else 1.0))
        xp := pyInt (((50 * chapter + 5 * stage +
            (mobs.map (fun m => m.xp_reward)).sum : ℤ) : ℚ) *
          (if stage = 10 then (3.0 : ℚ) else if stage = 5 then 2.0 else 1.0))
        items := [] } := by
  rfl

/-- Claim C3: when the log matches the session coordinates, the validator
accepts exactly when duration, causality, kill count, damage floor and
ceiling, and reported-duration consistency all hold. -/
theorem validate_battle_log_iff (bl : BattleLog) (ch st : ℤ)
    (mobs : List MobConfig) (created_ms : ℤ)
    (hch : bl.chapter = ch) (hst : bl.stage = st) :
    (validate_battle_log bl ch st mobs created_ms).1 = true ↔
      (5000 ≤ bl.battle_end_time - bl.battle_start_time ∧
       bl.battle_end_time - bl.battle_start_time ≤ 600000 ∧
       created_ms - 5000 ≤ bl.battle_start_time ∧
       bl.stats.mobs_killed = (mobs.length : ℤ) ∧
       0.5 * (((mobs.map (fun m => m.health)).sum : ℤ) : ℚ) ≤
         (bl.stats.total_damage_dealt : ℚ) ∧
       bl.stats.total_damage_dealt ≤ 100 * (bl.player_power * 50) ∧
       |bl.stats.duration_ms - (bl.battle_end_time - bl.battle_start_time)| ≤ 1000) := by
  subst hch hst
  simp only [validate_battle_log, MIN_BATTLE_DURATION_MS, MAX_BATTLE_DURATION_MS,
    MAX_DAMAGE_PER_POWER]
  rw [if_neg (by simp)]
  split_ifs with h1 h2 h3 h4 h5 h6 h7
  · exact iff_of_false (by simp) (by rintro ⟨a, -, -, -, -, -, -⟩; omega)
  · exact iff_of_false (by simp) (by rintro ⟨-, b, -, -, -, -, -⟩; omega)
  · exact iff_of_false (by simp) (by rintro ⟨-, -, c, -, -, -, -⟩; omega)
  · exact iff_of_false (by simp) (by rintro ⟨-, -, -, d, -, -, -⟩; omega)
  · exact iff_of_false (by simp) (by rintro ⟨-, -, -, -, e, -, -⟩; linarith)
  · exact iff_of_false (by simp) (by rintro ⟨-, -, -, -, -, f, -⟩; omega)
  · exact iff_of_false (by simp)
      (by rintro ⟨-, -, -, -, -, -, g2⟩; exact absurd h7 (not_lt.mpr g2))
  · push_neg at h1 h2 h3 h4 h5 h6 h7
    exact iff_of_true rfl
      ⟨by omega, by omega, by omega, h4, by linarith, by omega, h7⟩

/-! ## Concrete scenario data for witnesses and counterexamples -/

/-- A plausible battle log for an empty-mob stage 1-1 session. -/
def logA : BattleLog :=
  { version := 1, battle_start_time := 0, battle_end_time := 6000
    chapter := 1, stage := 1, player_level := 1, player_power := 100
    player_class := 0
    stats := { total_damage_dealt := 10, total_damage_received := 0
               mobs_killed := 0, skills_used := 0, potions_used := 0
               duration_ms := 6000 }
    mob_kills := [], checksum := none }

/-- A fresh, unconsumed stage 1-1 session with an empty mob snapshot. -/
def sessA : BattleSession :=
  { session_token := ("tokA"), character_id := ("c1"), chapter := 1, stage := 1
    mob_config := [], rewards := { gold := 110, gems := 1, xp := 55, items := [] }
    created_at := 0, expires_at := 1000000, is_used := false, used_at := none }

/-- The matching completion request for sessA. -/
def reqA : StageCompleteRequest :=
  { session_token := ("tokA"), chapter := 1, stage := 1, battle_log := logA }

/-- A level-1 character with default-shaped progression. -/
def charA : Character :=
  { level := 1, xp := 0, power := 100, gold := 5, gems := 7
    free_stat_points := 0, stats := none, inventory := none
    progression := some { chapters := some { completed_stages := some []
                                             highest_chapter := some 1
                                             highest_stage := some 1 } } }

/-- Witness for validate_battle_log_iff on a concrete accepted log. -/
theorem validate_battle_log_iff_witness :
    (validate_battle_log logA 1 1 [] 0).1 = true ↔
      (5000 ≤ logA.battle_end_time - logA.battle_start_time ∧
       logA.battle_end_time - logA.battle_start_time ≤ 600000 ∧
       (0 : ℤ) - 5000 ≤ logA.battle_start_time ∧
       logA.stats.mobs_killed = (([] : List MobConfig).length : ℤ) ∧
       0.5 * (((([] : List MobConfig).map (fun m => m.health)).sum : ℤ) : ℚ) ≤
         (logA.stats.total_damage_dealt : ℚ) ∧
       logA.stats.total_damage_dealt ≤ 100 * (logA.player_power * 50) ∧
       |logA.stats.duration_ms - (logA.battle_end_time - logA.battle_start_time)| ≤ 1000) :=
  validate_battle_log_iff logA 1 1 [] 0 rfl rfl

/-- Claim C2: every completion attempt that does not come back with
success = true leaves both the character row and the session row exactly as
they were: no reward, XP, level, inventory or progression change, and the
session is not marked used. -/
theorem complete_stage_reject_frame (now : ℤ) (character : Character)
    (sessionQ : Option BattleSession) (request : StageCompleteRequest)
    (h : (complete_stage now character sessionQ request).1.isSuccess = false) :
    (complete_stage now character sessionQ request).2.1 = character ∧
    (complete_stage now character sessionQ request).2.2 = sessionQ := by
  cases sessionQ with
  | none => exact ⟨rfl, rfl⟩
  | some session =>
      simp only [complete_stage] at h ⊢
      split_ifs at h ⊢ with h1 h2 h3 h4
      · exact ⟨rfl, rfl⟩
      · exact ⟨rfl, rfl⟩
      · exact ⟨rfl, rfl⟩
      · exact ⟨rfl, rfl⟩
      · exact absurd h (by simp [complete_stage_success, CompleteResult.isSuccess])

/-- An already-lapsed copy of sessA used to exercise a rejection path. -/
def sessB : BattleSession := { sessA with expires_at := 10 }

/-- Witness for complete_stage_reject_frame: an expired session at time 20
leaves character and session untouched. -/
theorem complete_stage_reject_frame_witness :
    (complete_stage 20 charA (some sessB) reqA).2.1 = charA ∧
    (complete_stage 20 charA (some sessB) reqA).2.2 = some sessB :=
  complete_stage_reject_frame 20 charA (some sessB) reqA (by rfl)

/-- Claim C1: when a valid, unused, unexpired session is completed with a
matching, validated battle log, the call succeeds and applies exactly the
snapshot gold, gems and XP; replaying the same token afterwards yields the
domain result success = false with already_completed = true and changes
neither the character nor the session any further. -/
theorem complete_stage_replay_idempotent (now1 now2 : ℤ) (character : Character)
    (s : BattleSession) (req1 req2 : StageCompleteRequest)
    (htok1 : req1.session_token = s.session_token)
    (htok2 : req2.session_token = s.session_token)
    (hused : s.is_used = false)
    (hexp : s.is_expired now1 = false)
    (hch : req1.chapter = s.chapter) (hst : req1.stage = s.stage)
    (hval : (validate_battle_log req1.battle_log s.chapter s.stage
      s.mob_config s.created_at).1 = true) :
    ∃ r1 : StageCompleteResponse,
      (complete_stage now1 character (some s) req1).1 = CompleteResult.response r1 ∧
      r1.success = true ∧ r1.already_completed = false ∧
      (complete_stage now1 character (some s) req1).2.1.gold =
        character.gold + s.rewards.gold ∧
      (complete_stage now1 character (some s) req1).2.1.gems =
        character.gems + s.rewards.gems ∧
      (complete_stage now1 character (some s) req1).2.1.xp =
        character.xp + s.rewards.xp ∧
      (complete_stage now1 character (some s) req1).2.2 =
        some { s with is_used := true, used_at := some now1 } ∧
      ∃ r2 : StageCompleteResponse,
        (complete_stage now2 (complete_stage now1 character (some s) req1).2.1
          (complete_stage now1 character (some s) req1).2.2 req2).1 =
            CompleteResult.response r2 ∧
        r2.success = false ∧ r2.already_completed = true ∧
        (complete_stage now2 (complete_stage now1 character (some s) req1).2.1
          (complete_stage now1 character (some s) req1).2.2 req2).2.1 =
            (complete_stage now1 character (some s) req1).2.1 ∧
        (complete_stage now2 (complete_stage now1 character (some s) req1).2.1
          (complete_stage now1 character (some s) req1).2.2 req2).2.2 =
            (complete_stage now1 character (some s) req1).2.2 := by
  have hred : complete_stage now1 character (some s) req1 =
      complete_stage_success now1 character s := by
    simp [complete_stage, hused, hexp, hch, hst, hval]
  rw [hred]
  refine ⟨_, rfl, rfl, rfl, ?_, ?_, ?_, rfl, _, rfl, rfl, rfl, rfl, rfl⟩
  · simp only [complete_stage_success]
    split <;> rfl
  · simp only [complete_stage_success]
    split <;> rfl
  · simp only [complete_stage_success]
    split <;> rfl

/-- Witness for complete_stage_replay_idempotent on the concrete sessA
scenario, both calls at time 0. -/
theorem complete_stage_replay_idempotent_witness :
    ∃ r1 : StageCompleteResponse,
      (complete_stage 0 charA (some sessA) reqA).1 = CompleteResult.response r1 ∧
      r1.success = true ∧ r1.already_completed = false ∧
      (complete_stage 0 charA (some sessA) reqA).2.1.gold =
        charA.gold + sessA.rewards.gold ∧
      (complete_stage 0 charA (some sessA) reqA).2.1.gems =
        charA.gems + sessA.rewards.gems ∧
      (complete_stage 0 charA (some sessA) reqA).2.1.xp =
        charA.xp + sessA.rewards.xp ∧
      (complete_stage 0 charA (some sessA) reqA).2.2 =
        some { sessA with is_used := true, used_at := some 0 } ∧
      ∃ r2 : StageCompleteResponse,
        (complete_stage 0 (complete_stage 0 charA (some sessA) reqA).2.1
          (complete_stage 0 charA (some sessA) reqA).2.2 reqA).1 =
            CompleteResult.response r2 ∧
        r2.success = false ∧ r2.already_completed = true ∧
        (complete_stage 0 (complete_stage 0 charA (some sessA) reqA).2.1
          (complete_stage 0 charA (some sessA) reqA).2.2 reqA).2.1 =
            (complete_stage 0 charA (some sessA) reqA).2.1 ∧
        (complete_stage 0 (complete_stage 0 charA (some sessA) reqA).2.1
          (complete_stage 0 charA (some sessA) reqA).2.2 reqA).2.2 =
            (complete_stage 0 charA (some sessA) reqA).2.2 :=
  complete_stage_replay_idempotent 0 0 charA sessA reqA reqA rfl rfl rfl rfl
    rfl rfl (by
      simp [validate_battle_log, reqA, sessA, logA, MIN_BATTLE_DURATION_MS,
        MAX_BATTLE_DURATION_MS, MAX_DAMAGE_PER_POWER]
      norm_num)

/-! ## Properties of the progression update -/

/-- Recording a completed stage key never touches the highest chapter. -/
theorem add_completed_stage_highest_chapter (cp : ChaptersProgress) (c s : ℤ) :
    (add_completed_stage cp c s).highest_chapter = cp.highest_chapter := by
  unfold add_completed_stage
  dsimp only
  split <;> rfl

/-- Recording a completed stage key never touches the highest stage. -/
theorem add_completed_stage_highest_stage (cp : ChaptersProgress) (c s : ℤ) :
    (add_completed_stage cp c s).highest_stage = cp.highest_stage := by
  unfold add_completed_stage
  dsimp only
  split <;> rfl

/-- After recording, the stage key is among the completed stages. -/
theorem add_completed_stage_mem (cp : ChaptersProgress) (c s : ℤ) :
    (toString c ++ ("-") ++ toString s) ∈
      (add_completed_stage cp c s).completed_stages.getD [] := by
  unfold add_completed_stage
  dsimp only
  split
  · next h => exact h
  · simp

/-- Advancing the highest chapter and stage never touches the completed
stage keys. -/
theorem advance_highest_completed (cp : ChaptersProgress) (c s : ℤ) :
    (advance_highest cp c s).completed_stages = cp.completed_stages := by
  unfold advance_highest
  split_ifs <;> rfl

/-- The highest chapter and stage move forward in lexicographic order. -/
theorem advance_highest_monotone (cp : ChaptersProgress) (c s : ℤ) :
    (advance_highest cp c s).highest_chapter.getD 1 > cp.highest_chapter.getD 1 ∨
    ((advance_highest cp c s).highest_chapter.getD 1 = cp.highest_chapter.getD 1 ∧
     (advance_highest cp c s).highest_stage.getD 1 ≥ cp.highest_stage.getD 1) := by
  unfold advance_highest
  split_ifs with h1 h2 h3 h4
  · left; simpa using h1
  · left; simp; omega
  · right; refine ⟨rfl, ?_⟩; simpa using h3
  · right; exact ⟨rfl, le_refl _⟩
  · right; exact ⟨rfl, le_refl _⟩

/-- Completing stage 10 of the chapter equal to the current highest chapter
advances to stage 1 of the next chapter. -/
theorem advance_highest_boss (cp : ChaptersProgress) (c : ℤ)
    (hc : c = cp.highest_chapter.getD 1) (hs : cp.highest_stage.getD 1 ≤ 10) :
    (advance_highest cp c 10).highest_chapter = some (c + 1) ∧
    (advance_highest cp c 10).highest_stage = some 1 := by
  unfold advance_highest
  rw [if_neg (by omega), if_pos hc, if_pos (by omega)]
  dsimp only
  rw [if_pos (show (10 : ℤ) = STAGES_PER_CHAPTER from rfl)]
  exact ⟨rfl, rfl⟩

/-- The progression blob produced by the success branch is exactly the
updated chapters dictionary. -/
theorem complete_stage_success_progression (now : ℤ) (character : Character)
    (s : BattleSession) :
    (complete_stage_success now character s).2.1.progression =
      some { chapters := some (update_chapters_progression
        ((character.progression.getD progression_default).chapters.getD
          chapters_prog_default) s.chapter s.stage) } := by
  simp only [complete_stage_success]
  split <;> rfl

/-- Claim C4 as amended: on every accepted completion the highest chapter
and stage advance in lexicographic order and never move backward, the
completed stage key is recorded, and completing stage 10 of the chapter
currently equal to the highest chapter (with a sane highest stage at most
10) moves the highest position to stage 1 of the next chapter. -/
theorem complete_stage_progression_advance (now : ℤ) (character : Character)
    (s : BattleSession) (req : StageCompleteRequest)
    (hS : (complete_stage now character (some s) req).1.isSuccess = true) :
    ((complete_stage now character (some s) req).2.1.highestChapterVal >
        character.highestChapterVal ∨
      ((complete_stage now character (some s) req).2.1.highestChapterVal =
          character.highestChapterVal ∧
        (complete_stage now character (some s) req).2.1.highestStageVal ≥
          character.highestStageVal)) ∧
    (s.stage = 10 → s.chapter = character.highestChapterVal →
      character.highestStageVal ≤ 10 →
      (complete_stage now character (some s) req).2.1.highestChapterVal =
        s.chapter + 1 ∧
      (complete_stage now character (some s) req).2.1.highestStageVal = 1) ∧
    (toString s.chapter ++ ("-") ++ toString s.stage) ∈
      (complete_stage now character (some s) req).2.1.completedStagesVal := by
  have hred : complete_stage now character (some s) req =
      complete_stage_success now character s := by
    simp only [complete_stage] at hS ⊢
    split_ifs at hS ⊢ with h1 h2 h3 h4
    · simp [CompleteResult.isSuccess] at hS
    · simp [CompleteResult.isSuccess] at hS
    · simp [CompleteResult.isSuccess] at hS
    · simp [CompleteResult.isSuccess] at hS
    · rfl
  rw [hred]
  have hprog := complete_stage_success_progression now character s
  have hhc : (complete_stage_success now character s).2.1.highestChapterVal =
      (update_chapters_progression
        ((character.progression.getD progression_default).chapters.getD
          chapters_prog_default) s.chapter s.stage).highest_chapter.getD 1 := by
    unfold Character.highestChapterVal
    rw [hprog]
    rfl
  have hhs : (complete_stage_success now character s).2.1.highestStageVal =
      (update_chapters_progression
        ((character.progression.getD progression_default).chapters.getD
          chapters_prog_default) s.chapter s.stage).highest_stage.getD 1 := by
    unfold Character.highestStageVal
    rw [hprog]
    rfl
  have hcs : (complete_stage_success now character s).2.1.completedStagesVal =
      (update_chapters_progression
        ((character.progression.getD progression_default).chapters.getD
          chapters_prog_default) s.chapter s.stage).completed_stages.getD [] := by
    unfold Character.completedStagesVal
    rw [hprog]
    rfl
  have hchar : character.highestChapterVal =
      ((character.progression.getD progression_default).chapters.getD
        chapters_prog_default).highest_chapter.getD 1 := rfl
  have hchar2 : character.highestStageVal =
      ((character.progression.getD progression_default).chapters.getD
        chapters_prog_default).highest_stage.getD 1 := rfl
  refine ⟨?_, ?_, ?_⟩
  · rw [hhc, hhs, hchar, hchar2]
    simp only [update_chapters_progression]
    have hmono := advance_highest_monotone
      (add_completed_stage ((character.progression.getD progression_default).chapters.getD
        chapters_prog_default) s.chapter s.stage) s.chapter s.stage
    rw [add_completed_stage_highest_chapter, add_completed_stage_highest_stage] at hmono
    exact hmono
  · intro hst10 hceq hsle
    rw [hhc, hhs]
    simp only [update_chapters_progression]
    rw [hst10]
    have hb := advance_highest_boss
      (add_completed_stage ((character.progression.getD progression_default).chapters.getD
        chapters_prog_default) s.chapter 10) s.chapter
      (by rw [add_completed_stage_highest_chapter]; rw [hchar] at hceq; exact hceq)
      (by rw [add_completed_stage_highest_stage]; rw [hchar2] at hsle; exact hsle)
    rw [hb.1, hb.2]
    exact ⟨rfl, rfl⟩
  · rw [hcs]
    simp only [update_chapters_progression]
    rw [advance_highest_completed]
    exact add_completed_stage_mem _ s.chapter s.stage

/-- A valid battle log for an empty-mob boss stage 1-10 session. -/
def logC : BattleLog :=
  { version := 1, battle_start_time := 0, battle_end_time := 6000
    chapter := 1, stage := 10, player_level := 1, player_power := 100
    player_class := 0
    stats := { total_damage_dealt := 10, total_damage_received := 0
               mobs_killed := 0, skills_used := 0, potions_used := 0
               duration_ms := 6000 }
    mob_kills := [], checksum := none }

/-- A fresh session for replaying boss stage 1-10. -/
def sessC : BattleSession :=
  { session_token := ("tokC"), character_id := ("c1"), chapter := 1, stage := 10
    mob_config := [], rewards := { gold := 0, gems := 0, xp := 0, items := [] }
    created_at := 0, expires_at := 1000000, is_used := false, used_at := none }

/-- The matching completion request for sessC. -/
def reqC : StageCompleteRequest :=
  { session_token := ("tokC"), chapter := 1, stage := 10, battle_log := logC }

/-- A character already deep in chapter 5 who replays stage 1-10. -/
def charC : Character :=
  { level := 1, xp := 0, power := 100, gold := 0, gems := 0
    free_stat_points := 0, stats := none, inventory := none
    progression := some
      { chapters := some
          { completed_stages := some []
            highest_chapter := some 5, highest_stage := some 3 } } }

/-- Counterexample to claim C4 as stated: a character at highest position
(5, 3) replays boss stage 1-10; the completion is accepted, yet the highest
position stays (5, 3) instead of becoming (2, 1). -/
theorem complete_stage_stage10_claim_cex :
    (complete_stage 0 charC (some sessC) reqC).1.isSuccess = true ∧
    (complete_stage 0 charC (some sessC) reqC).2.1.highestChapterVal = 5 ∧
    (complete_stage 0 charC (some sessC) reqC).2.1.highestStageVal = 3 ∧
    ¬((complete_stage 0 charC (some sessC) reqC).2.1.highestChapterVal = 1 + 1 ∧
      (complete_stage 0 charC (some sessC) reqC).2.1.highestStageVal = 1) := by
  have hred : complete_stage 0 charC (some sessC) reqC =
      complete_stage_success 0 charC sessC := by
    simp [complete_stage, reqC, sessC, logC, validate_battle_log,
      BattleSession.is_expired, MIN_BATTLE_DURATION_MS, MAX_BATTLE_DURATION_MS,
      MAX_DAMAGE_PER_POWER]
    try norm_num
  have h5 : (complete_stage 0 charC (some sessC) reqC).2.1.highestChapterVal = 5 := by
    rw [hred]
    unfold Character.highestChapterVal
    rw [complete_stage_success_progression 0 charC sessC]
    decide
  have h3 : (complete_stage 0 charC (some sessC) reqC).2.1.highestStageVal = 3 := by
    rw [hred]
    unfold Character.highestStageVal
    rw [complete_stage_success_progression 0 charC sessC]
    decide
  refine ⟨by rw [hred]; rfl, h5, h3, ?_⟩
  rintro ⟨h1, -⟩
  rw [h5] at h1
  norm_num at h1

/-- A fresh session for boss stage 1-10 of a frontier character. -/
def sessD : BattleSession :=
  { session_token := ("tokD"), character_id := ("c1"), chapter := 1, stage := 10
    mob_config := [], rewards := { gold := 600, gems := 3, xp := 165, items := [] }
    created_at := 0, expires_at := 1000000, is_used := false, used_at := none }

/-- The matching completion request for sessD. -/
def reqD : StageCompleteRequest :=
  { session_token := ("tokD"), chapter := 1, stage := 10, battle_log := logC }

/-- A character whose highest reached position is (1, 9). -/
def charD : Character :=
  { level := 1, xp := 0, power := 100, gold := 0, gems := 0
    free_stat_points := 0, stats := none, inventory := none
    progression := some
      { chapters := some
          { completed_stages := some []
            highest_chapter := some 1, highest_stage := some 9 } } }

/-- Witness for complete_stage_progression_advance: completing boss stage
1-10 at the frontier moves the highest position to (2, 1). -/
theorem complete_stage_progression_advance_witness :
    ((complete_stage 0 charD (some sessD) reqD).2.1.highestChapterVal >
        charD.highestChapterVal ∨
      ((complete_stage 0 charD (some sessD) reqD).2.1.highestChapterVal =
          charD.highestChapterVal ∧
        (complete_stage 0 charD (some sessD) reqD).2.1.highestStageVal ≥
          charD.highestStageVal)) ∧
    ((complete_stage 0 charD (some sessD) reqD).2.1.highestChapterVal =
      sessD.chapter + 1 ∧
     (complete_stage 0 charD (some sessD) reqD).2.1.highestStageVal = 1) ∧
    (toString sessD.chapter ++ ("-") ++ toString sessD.stage) ∈
      (complete_stage 0 charD (some sessD) reqD).2.1.completedStagesVal := by
  have h := complete_stage_progression_advance 0 charD sessD reqD (by
    have hredD : complete_stage 0 charD (some sessD) reqD =
        complete_stage_success 0 charD sessD := by
      simp [complete_stage, reqD, sessD, logC, validate_battle_log,
        BattleSession.is_expired, MIN_BATTLE_DURATION_MS,
        MAX_BATTLE_DURATION_MS, MAX_DAMAGE_PER_POWER]
      try norm_num
    rw [hredD]
    rfl)
  exact ⟨h.1, h.2.1 rfl rfl (by decide), h.2.2⟩

/-! ## Frame property of the template tables -/

/-- generate_stage_mobs never writes the template tables: the 60 percent
mini-boss scaling happens on a dict copy. -/
theorem generate_stage_mobs_state (state : Templates) (chapter stage : ℤ)
    (pick : ℕ → ℕ) :
    (generate_stage_mobs state chapter stage pick).2 = state := by
  unfold generate_stage_mobs
  dsimp only
  split
  · split <;> rfl
  · split
    · split <;> rfl
    · rfl

/-- The first mob of a mini-boss stage is determined by the tables and the
chapter alone, independently of the random support-mob choice. -/
theorem generate_stage_mobs_miniboss_head (state : Templates) (chapter : ℤ)
    (p q : ℕ → ℕ) :
    (generate_stage_mobs state chapter 5 p).1.head? =
    (generate_stage_mobs state chapter 5 q).1.head? := by
  unfold generate_stage_mobs
  have h10 : ¬ ((5 : ℤ) = 10) := by norm_num
  rw [if_neg h10, if_pos (show (5 : ℤ) = 5 from rfl), if_neg h10,
    if_pos (show (5 : ℤ) = 5 from rfl)]
  dsimp only
  cases state.boss_templates.get?
      (((chapter - 1) % ((state.boss_templates.map Prod.fst).length : ℤ)).toNat) with
  | none => rfl
  | some pr => rfl

/-- Claim C9: generating a mini-boss stage leaves the class-level template
tables untouched, and a repeated call for the same chapter produces a
mini-boss with the same health and damage: the scaling is applied to a
copy and never compounds. -/
theorem miniboss_templates_frame (chapter : ℤ) (pick pick2 : ℕ → ℕ) :
    (generate_stage_mobs initial_templates chapter 5 pick).2 = initial_templates ∧
    (generate_stage_mobs (generate_stage_mobs initial_templates chapter 5 pick).2
        chapter 5 pick2).2 = initial_templates ∧
    ((generate_stage_mobs (generate_stage_mobs initial_templates chapter 5 pick).2
        chapter 5 pick2).1.head?.map (fun m => (m.health, m.damage))) =
      ((generate_stage_mobs initial_templates chapter 5 pick).1.head?.map
        (fun m => (m.health, m.damage))) := by
  have hst := generate_stage_mobs_state initial_templates chapter 5 pick
  refine ⟨hst, ?_, ?_⟩
  · rw [hst]
    exact generate_stage_mobs_state initial_templates chapter 5 pick2
  · rw [hst, generate_stage_mobs_miniboss_head initial_templates chapter pick2 pick]
